/-
Verification of the libsums authenticated-scraping client
(src/client.rs, src/member.rs) against its specification.

The Rust code drives a remote WebDriver session.  We shallowly embed it:
every remote call (navigate, find, click, set, submit, execute, wait) is a
suspension point whose outcome is supplied by an environment record, and the
pure data manipulation (error wrapping, cell-to-field mapping, date parsing,
row iteration) is translated function-by-function from the source.  Rust
`Result` becomes `Except`; a Rust panic (out-of-bounds `Vec` indexing) is a
distinguished `Outcome.panicked` value.
-/
import Mathlib

set_option autoImplicit false

deriving instance DecidableEq for Except

namespace Libsums

/-! ## Error model

Mirrors `fantoccini::error::CmdError` (the external WebDriver error type, of
which only the variant structure matters: element-not-found, wait timeout,
and transport-level faults are distinct values of one enum) and the error
enums of `src/client.rs` lines 26-69. -/

/-- Model of the external WebDriver command error `fantoccini::error::CmdError`:
an element probe can fail because the element is absent (`noSuchElement`), a
bounded wait can time out (`waitTimeout`), and any command can fail at the
transport level (`connectionLost`, or a driver-reported `standard` error). -/
inductive CmdError where
  | noSuchElement
  | waitTimeout
  | connectionLost
  | standard (code : Nat)
  deriving DecidableEq

/-- Model of `SumsClientError` (client.rs lines 26-30): a single variant
wrapping a WebDriver command error. -/
inductive SumsClientError where
  | webDriverCmdError (e : CmdError)
  deriving DecidableEq

/-- Model of `SumsClientAuthError` (client.rs lines 38-45). -/
inductive SumsClientAuthError where
  | sumsClientError (e : SumsClientError)
  | authFailedError (msg : String)
  deriving DecidableEq

/-- Model of the payload of `std::num::ParseIntError` (never constructed by
this program, see `parseStudentId`). -/
inductive ParseIntErrorKind where
  | empty
  | invalidDigit
  | overflow
  deriving DecidableEq

/-- Model of `chrono::ParseError`: the date string was structurally invalid,
or named an impossible calendar date. -/
inductive ChronoParseError where
  | invalid
  | impossible
  deriving DecidableEq

/-- Model of `SumsClientMembersError` (client.rs lines 53-63): a wrapped
WebDriver fault, an integer-parse failure, or a date-parse failure. -/
inductive SumsClientMembersError where
  | sumsClientError (e : SumsClientError)
  | parseIntError (k : ParseIntErrorKind)
  | chronoParseError (e : ChronoParseError)
  deriving DecidableEq

/-- Top-level variant discriminator of `SumsClientMembersError`: two errors of
the same kind are indistinguishable to a caller matching on the enum's
variants. -/
def membersErrorKind : SumsClientMembersError → Nat
  | .sumsClientError _ => 0
  | .parseIntError _ => 1
  | .chronoParseError _ => 2

/-! ## Member data model (src/member.rs) -/

/-- Model of `pub type StudentId = String;` (member.rs line 3). -/
abbrev StudentId := String

/-- Model of `MemberType` (member.rs lines 5-8). -/
inductive MemberType where
  | student
  deriving DecidableEq

/-- Calendar date, the model of `chrono::NaiveDate` restricted to the
non-negative years this program handles. -/
structure Date where
  year : Nat
  month : Nat
  day : Nat
  deriving DecidableEq

/-- Model of `Member` (member.rs lines 22-29). -/
structure Member where
  student_id : StudentId
  name : String
  member_type : MemberType
  subscription_purchased : String
  date_joined : Date
  deriving DecidableEq

/-- Model of `Member::new` (member.rs lines 31-47). -/
def Member.new (student_id : StudentId) (name : String) (member_type : MemberType)
    (subscription_purchased : String) (date_joined : Date) : Member :=
  { student_id, name, member_type, subscription_purchased, date_joined }

/-! ## Date parsing

Model of `NaiveDate::parse_from_str(s, "%Y-%m-%d")` (client.rs line 192):
three dash-separated numeric fields consuming the whole string, month and day
at most two digits, validated against the real calendar (leap years
included). -/

def isLeapYear (y : Nat) : Bool :=
  y % 4 == 0 && (y % 100 != 0 || y % 400 == 0)

def daysInMonth (y m : Nat) : Nat :=
  if m == 2 then (if isLeapYear y then 29 else 28)
  else if m == 4 || m == 6 || m == 9 || m == 11 then 30
  else 31

/-- Split a character list at every dash, keeping empty pieces, so that
`splitDash s.data` agrees with `s.splitOn "-"`. -/
def splitDash : List Char → List (List Char)
  | [] => [[]]
  | c :: cs =>
    if c = '-' then
      [] :: splitDash cs
    else
      match splitDash cs with
      | [] => [[c]]
      | p :: ps => (c :: p) :: ps

def digitsToNatAux : List Char → Nat → Option Nat
  | [], acc => some acc
  | c :: cs, acc =>
    if c.isDigit then digitsToNatAux cs (acc * 10 + (c.toNat - 48)) else none

/-- Value of a nonempty all-digit character list, `none` otherwise. -/
def digitsToNat? : List Char → Option Nat
  | [] => none
  | c :: cs => digitsToNatAux (c :: cs) 0

/-- Parse a numeric field of at most `maxLen` digits. -/
def parseNumField (cs : List Char) (maxLen : Nat) : Option Nat :=
  if cs.length ≤ maxLen then digitsToNat? cs else none

/-- Model of `NaiveDate::parse_from_str` with format `%Y-%m-%d`. -/
def parseDate (s : String) : Except ChronoParseError Date :=
  match splitDash s.data with
  | [ys, ms, ds] =>
    match digitsToNat? ys, parseNumField ms 2, parseNumField ds 2 with
    | some y, some m, some d =>
      if 1 ≤ m ∧ m ≤ 12 ∧ 1 ≤ d ∧ d ≤ daysInMonth y m then
        Except.ok ⟨y, m, d⟩
      else
        Except.error ChronoParseError.impossible
    | _, _, _ => Except.error ChronoParseError.invalid
  | _ => Except.error ChronoParseError.invalid

/-! ## Row extraction (client.rs lines 184-196)

`member_table_data[i]` is Rust `Vec` indexing: out of bounds aborts the
process instead of returning a typed error, which we model with a
distinguished `Outcome.panicked` result. -/

/-- Result of a computation that can panic (Rust process abort), fail with a
typed `SumsClientMembersError`, or succeed. -/
inductive Outcome (α : Type) where
  | panicked
  | error (e : SumsClientMembersError)
  | ok (a : α)
  deriving DecidableEq

/-- Model of `member_table_data[0].text().await?.parse()?` at type
`StudentId = String`: `String`'s `FromStr` implementation is infallible
(`Err = Infallible`, modelled as `Empty`), so the parse returns the text
verbatim. -/
def parseStudentId (s : String) : Except Empty StudentId :=
  Except.ok s

/-- Model of the body of the `for member_element in member_elements` loop
(client.rs lines 185-193): index cells 0, 1, 3 and 4 of the row (in the
source's evaluation order, panicking at the first out-of-bounds index), parse
cell 0 as `StudentId` and cell 4 as a `%Y-%m-%d` date, fix the member type to
`Student`, and never touch cell 2. -/
def rowToMember (cells : List String) : Outcome Member :=
  match cells[0]? with
  | none => Outcome.panicked
  | some c0 =>
    match parseStudentId c0 with
    | Except.error e => nomatch e
    | Except.ok sid =>
      match cells[1]? with
      | none => Outcome.panicked
      | some c1 =>
        match cells[3]? with
        | none => Outcome.panicked
        | some c3 =>
          match cells[4]? with
          | none => Outcome.panicked
          | some c4 =>
            match parseDate c4 with
            | Except.error e => Outcome.error (SumsClientMembersError.chronoParseError e)
            | Except.ok d => Outcome.ok (Member.new sid c1 MemberType.student c3 d)

/-- Model of the whole extraction loop (client.rs lines 182-198): convert the
rows in document order, aborting the whole call at the first panic or typed
error, and collect the members in order. -/
def extractMembers : List (List String) → Outcome (List Member)
  | [] => Outcome.ok []
  | r :: rs =>
    match rowToMember r with
    | Outcome.panicked => Outcome.panicked
    | Outcome.error e => Outcome.error e
    | Outcome.ok m =>
      match extractMembers rs with
      | Outcome.panicked => Outcome.panicked
      | Outcome.error e => Outcome.error e
      | Outcome.ok ms => Outcome.ok (m :: ms)

/-! ## Authentication flow (client.rs lines 95-143)

Each remote WebDriver call is a suspension point; the environment record
supplies the outcome the remote endpoint would return for it.  The field
order matches the order in which `authenticate` issues the calls. -/

/-- Outcomes of the remote calls issued by `authenticate`, in program order.
`findLoginError` is the post-submit probe for the login-error element: `ok`
means the element was found, `error e` means the probe failed with `e`
(element absent, or a transport fault).  `loginErrorText` is the outcome of
`element.text()` on the found element. -/
structure AuthEnv where
  gotoBase : Except CmdError Unit
  findUserActionsInvoker : Except CmdError Unit
  clickUserActionsInvoker : Except CmdError Unit
  findStudentLogin : Except CmdError Unit
  clickStudentLogin : Except CmdError Unit
  findLoginForm : Except CmdError Unit
  setUsername : Except CmdError Unit
  setPassword : Except CmdError Unit
  submitForm : Except CmdError Unit
  findLoginError : Except CmdError Unit
  loginErrorText : Except CmdError String
  deriving DecidableEq

/-- The `?` operator on a WebDriver call inside `authenticate`: a `CmdError`
is converted by the `From<CmdError> for SumsClientAuthError` impl
(client.rs lines 47-51); on success the flow continues. -/
def authStep (r : Except CmdError Unit) (k : Except SumsClientAuthError Unit) :
    Except SumsClientAuthError Unit :=
  match r with
  | Except.error e =>
    Except.error (SumsClientAuthError.sumsClientError (SumsClientError.webDriverCmdError e))
  | Except.ok _ => k

/-- Model of `SumsClient::authenticate` (client.rs lines 95-143): navigate to
the base URL, click the user-actions invoker, click the student-login entry,
find the login form, set username and password, submit, then probe for the
login-error element.  A found error element yields
`AuthFailedError(text)` (with the text fetch's own fault propagated); ANY
failure of the probe — the source matches `Err(_)` — yields `Ok(())`. -/
def authenticate (env : AuthEnv) : Except SumsClientAuthError Unit :=
  authStep env.gotoBase
  (authStep env.findUserActionsInvoker
  (authStep env.clickUserActionsInvoker
  (authStep env.findStudentLogin
  (authStep env.clickStudentLogin
  (authStep env.findLoginForm
  (authStep env.setUsername
  (authStep env.setPassword
  (authStep env.submitForm
    (match env.findLoginError with
     | Except.ok _ =>
       match env.loginErrorText with
       | Except.ok t => Except.error (SumsClientAuthError.authFailedError t)
       | Except.error e =>
         Except.error
           (SumsClientAuthError.sumsClientError (SumsClientError.webDriverCmdError e))
     | Except.error _ => Except.ok ())))))))))

/-- The nine pre-probe remote calls of `authenticate` all succeed. -/
abbrev authPreOk (env : AuthEnv) : Prop :=
  env.gotoBase = Except.ok () ∧
  env.findUserActionsInvoker = Except.ok () ∧
  env.clickUserActionsInvoker = Except.ok () ∧
  env.findStudentLogin = Except.ok () ∧
  env.clickStudentLogin = Except.ok () ∧
  env.findLoginForm = Except.ok () ∧
  env.setUsername = Except.ok () ∧
  env.setPassword = Except.ok () ∧
  env.submitForm = Except.ok ()

/-! ## Member-table page state

The DOM effects of the page-size expansion are the external page's
behaviour, modelled from the spec because the injected script's source
(src/js/add_show_all_entries.js, bundled via include_str) is not under
src/. -/

/-- State of the rendered member table: the underlying row data (each row its
cell texts in document order), the current page size, whether the "show all"
page-size option exists, and whether it is selected. -/
structure PageState where
  rows : List (List String)
  pageSize : Nat
  hasShowAllOption : Bool
  showAll : Bool
  deriving DecidableEq

/-- Modelled from the spec: the source of addShowAllEntries()
(src/js/add_show_all_entries.js, referenced at client.rs line 21) is not
under src/; per the spec the injected script exposes a maximum "show all"
option on the table's page-size control. -/
def addShowAllEntries (p : PageState) : PageState :=
  { p with hasShowAllOption := true }

/-- Model of `entry_count_selector.select_by_value("100000")` (client.rs
lines 169-171): selecting the script-added maximum option by its value makes
the table show all rows; if no such option exists the select command fails. -/
def selectShowAllByValue (p : PageState) : Except CmdError PageState :=
  if p.hasShowAllOption then
    Except.ok { p with showAll := true }
  else
    Except.error CmdError.noSuchElement

/-- Rows the rendered table exposes to `find_all(tr)`: all of them once the
maximum page-size option is selected, otherwise only the current page. -/
def visibleRows (p : PageState) : List (List String) :=
  if p.showAll then p.rows else p.rows.take p.pageSize

/-! ## Member listing flow (client.rs lines 145-216) -/

/-- Outcomes of the remote calls issued by `members` (including those of the
private `go_to_member_page` it starts with), in program order, together with
the state of the member-table page. -/
structure MembersEnv where
  gotoBase : Except CmdError Unit
  findUserActionsInvoker : Except CmdError Unit
  clickUserActionsInvoker : Except CmdError Unit
  findStudentDashboardLink : Except CmdError Unit
  clickStudentDashboardLink : Except CmdError Unit
  waitForDashboardUrl : Except CmdError Unit
  gotoMembersPage : Except CmdError Unit
  executeAddShowAllEntries : Except CmdError Unit
  findEntryCountSelector : Except CmdError Unit
  selectEntryCount : Except CmdError Unit
  findTableBody : Except CmdError Unit
  findAllRows : Except CmdError Unit
  page : PageState
  deriving DecidableEq

/-- The `?` operator on a WebDriver call inside `go_to_member_page`
(client.rs lines 201-216): a `CmdError` is wrapped by the
`From<CmdError>` impl generated for `SumsClientError`. -/
def navStep (r : Except CmdError Unit) (k : Except SumsClientError Unit) :
    Except SumsClientError Unit :=
  match r with
  | Except.error e => Except.error (SumsClientError.webDriverCmdError e)
  | Except.ok _ => k

/-- Model of `SumsClient::go_to_member_page` (client.rs lines 201-216):
navigate to the base URL, click the user-actions invoker, click the
student-dashboard link, then block until the browser URL is the dashboard
URL.  A timeout of that bounded wait surfaces as the `CmdError` wait-timeout
value, wrapped like every other command fault. -/
def go_to_member_page (env : MembersEnv) : Except SumsClientError Unit :=
  navStep env.gotoBase
  (navStep env.findUserActionsInvoker
  (navStep env.clickUserActionsInvoker
  (navStep env.findStudentDashboardLink
  (navStep env.clickStudentDashboardLink
  (navStep env.waitForDashboardUrl
    (Except.ok ()))))))

/-- The `?` operator on a WebDriver call inside `members`: a `CmdError` is
wrapped through `From<CmdError> for SumsClientMembersError`
(client.rs lines 65-69); on success the flow continues. -/
def memStep {α : Type} (r : Except CmdError Unit) (k : Outcome α) : Outcome α :=
  match r with
  | Except.error e =>
    Outcome.error
      (SumsClientMembersError.sumsClientError (SumsClientError.webDriverCmdError e))
  | Except.ok _ => k

/-- Model of `SumsClient::members` (client.rs lines 145-199): run
`go_to_member_page` (its `SumsClientError` converted by the `#[from]` impl),
navigate to the group members URL, execute the addShowAllEntries script, find
the entry-count selector, select the maximum entry count by value `100000`,
find the table body, collect its rows, and convert each row to a `Member`. -/
def members (env : MembersEnv) : Outcome (List Member) :=
  match go_to_member_page env with
  | Except.error e => Outcome.error (SumsClientMembersError.sumsClientError e)
  | Except.ok _ =>
    memStep env.gotoMembersPage
    (memStep env.executeAddShowAllEntries
      (let p1 := addShowAllEntries env.page
       memStep env.findEntryCountSelector
       (memStep env.selectEntryCount
         (match selectShowAllByValue p1 with
          | Except.error e =>
            Outcome.error
              (SumsClientMembersError.sumsClientError (SumsClientError.webDriverCmdError e))
          | Except.ok p2 =>
            memStep env.findTableBody
            (memStep env.findAllRows
              (extractMembers (visibleRows p2)))))))

/-- All remote calls issued by `members` succeed. -/
abbrev membersRemoteOk (env : MembersEnv) : Prop :=
  env.gotoBase = Except.ok () ∧
  env.findUserActionsInvoker = Except.ok () ∧
  env.clickUserActionsInvoker = Except.ok () ∧
  env.findStudentDashboardLink = Except.ok () ∧
  env.clickStudentDashboardLink = Except.ok () ∧
  env.waitForDashboardUrl = Except.ok () ∧
  env.gotoMembersPage = Except.ok () ∧
  env.executeAddShowAllEntries = Except.ok () ∧
  env.findEntryCountSelector = Except.ok () ∧
  env.selectEntryCount = Except.ok () ∧
  env.findTableBody = Except.ok () ∧
  env.findAllRows = Except.ok ()

/-! ## Well-formedness of rows -/

/-- A row is extractable: it has a cell at position 4 (hence at 0, 1, 3) and
that cell parses as a `%Y-%m-%d` date. -/
def rowOkP (r : List String) : Prop :=
  ∃ c4 d, r[4]? = some c4 ∧ parseDate c4 = Except.ok d

/-- One of the two parsed cells of a row fails to parse: the studentId cell
per the declared identifier type (`String`, whose parse error type is
`Empty`), or the dateJoined cell per the `%Y-%m-%d` format. -/
def rowParseFails (r : List String) : Prop :=
  (∃ c0, r[0]? = some c0 ∧ ∃ e : Empty, parseStudentId c0 = Except.error e) ∨
  (∃ c4 e, r[4]? = some c4 ∧ parseDate c4 = Except.error e)

/-! ## Concrete environments used as witnesses and counterexamples -/

/-- An authentication run in which every remote call succeeds and the
post-submit probe finds no login-error element. -/
def authEnvAllOk : AuthEnv where
  gotoBase := Except.ok ()
  findUserActionsInvoker := Except.ok ()
  clickUserActionsInvoker := Except.ok ()
  findStudentLogin := Except.ok ()
  clickStudentLogin := Except.ok ()
  findLoginForm := Except.ok ()
  setUsername := Except.ok ()
  setPassword := Except.ok ()
  submitForm := Except.ok ()
  findLoginError := Except.error CmdError.noSuchElement
  loginErrorText := Except.ok ""

/-- Same run, but the post-submit probe fails with a transport-level fault
(connection dropped) instead of the element being absent. -/
def authEnvProbeLost : AuthEnv :=
  { authEnvAllOk with findLoginError := Except.error CmdError.connectionLost }

/-- Same run, but the login-error element is present and carries a rejection
message. -/
def authEnvRejected : AuthEnv :=
  { authEnvAllOk with
      findLoginError := Except.ok ()
      loginErrorText := Except.ok "Incorrect username or password." }

/-- A member-listing run in which every remote call succeeds, over the given
page state. -/
def okMembersEnv (p : PageState) : MembersEnv where
  gotoBase := Except.ok ()
  findUserActionsInvoker := Except.ok ()
  clickUserActionsInvoker := Except.ok ()
  findStudentDashboardLink := Except.ok ()
  clickStudentDashboardLink := Except.ok ()
  waitForDashboardUrl := Except.ok ()
  gotoMembersPage := Except.ok ()
  executeAddShowAllEntries := Except.ok ()
  findEntryCountSelector := Except.ok ()
  selectEntryCount := Except.ok ()
  findTableBody := Except.ok ()
  findAllRows := Except.ok ()
  page := p

/-- A member table with no rows, default page size 25. -/
def emptyPage : PageState where
  rows := []
  pageSize := 25
  hasShowAllOption := false
  showAll := false

/-- Two well-formed rows behind a one-row default page size: extraction must
see both, not just the default page. -/
def pageTwoRows : PageState where
  rows := [["111111", "Ann Smith", "ignored", "Gold", "2023-09-01"],
           ["222222", "Bob Jones", "ignored", "Silver", "2024-02-29"]]
  pageSize := 1
  hasShowAllOption := false
  showAll := false

/-- One row whose date cell does not parse. -/
def pageBadDate : PageState where
  rows := [["123456", "Jane Doe", "ignored", "Gold", "not-a-date"]]
  pageSize := 25
  hasShowAllOption := false
  showAll := false

/-- One row with only four cells. -/
def pageShortRow : PageState where
  rows := [["123456", "Jane Doe", "ignored", "Gold"]]
  pageSize := 25
  hasShowAllOption := false
  showAll := false

def membersEnvBadDate : MembersEnv := okMembersEnv pageBadDate

def membersEnvShortRow : MembersEnv := okMembersEnv pageShortRow

def membersEnvTwoRows : MembersEnv := okMembersEnv pageTwoRows

/-- A member-listing run whose bounded wait for the dashboard URL times
out. -/
def membersEnvWaitTimeout : MembersEnv :=
  { okMembersEnv emptyPage with waitForDashboardUrl := Except.error CmdError.waitTimeout }

/-- A member-listing run whose wait call instead fails at the transport
level. -/
def membersEnvWaitLost : MembersEnv :=
  { okMembersEnv emptyPage with waitForDashboardUrl := Except.error CmdError.connectionLost }

/-- The members-call error produced by a timed-out dashboard wait. -/
def errWaitTimeout : SumsClientMembersError :=
  SumsClientMembersError.sumsClientError (SumsClientError.webDriverCmdError CmdError.waitTimeout)

/-- The members-call error produced by a dropped connection. -/
def errTransportLost : SumsClientMembersError :=
  SumsClientMembersError.sumsClientError (SumsClientError.webDriverCmdError CmdError.connectionLost)

/-! ## Extraction lemmas -/

theorem rowToMember_cons (c0 c1 c2 c3 c4 : String) (rest : List String) :
    rowToMember (c0 :: c1 :: c2 :: c3 :: c4 :: rest) =
      (match parseDate c4 with
       | Except.error e => Outcome.error (SumsClientMembersError.chronoParseError e)
       | Except.ok d => Outcome.ok (Member.new c0 c1 MemberType.student c3 d)) := by
  rcases hd : parseDate c4 with e | d <;>
    simp [rowToMember, parseStudentId, hd]

theorem exists_five_cells (r : List String) (h : 5 ≤ r.length) :
    ∃ c0 c1 c2 c3 c4 rest, r = c0 :: c1 :: c2 :: c3 :: c4 :: rest := by
  rcases r with _ | ⟨c0, _ | ⟨c1, _ | ⟨c2, _ | ⟨c3, _ | ⟨c4, rest⟩⟩⟩⟩⟩
  · simp at h
  · simp at h
  · simp at h
  · simp at h
  · simp at h
  · exact ⟨c0, c1, c2, c3, c4, rest, rfl⟩

theorem rowToMember_ok_of_rowOkP (r : List String) (h : rowOkP r) :
    ∃ m, rowToMember r = Outcome.ok m := by
  obtain ⟨c4, d, hc4, hd⟩ := h
  have hlen : 5 ≤ r.length := by
    by_contra hcon
    push_neg at hcon
    rw [List.getElem?_eq_none (by omega)] at hc4
    cases hc4
  obtain ⟨a0, a1, a2, a3, a4, rest, rfl⟩ := exists_five_cells r hlen
  have ha4 : a4 = c4 := by simpa using hc4
  subst ha4
  exact ⟨Member.new a0 a1 MemberType.student a3 d, by rw [rowToMember_cons, hd]⟩

theorem extractMembers_ok_length (rows : List (List String)) (ms : List Member)
    (h : extractMembers rows = Outcome.ok ms) : ms.length = rows.length := by
  induction rows generalizing ms with
  | nil => simp only [extractMembers] at h; cases h; rfl
  | cons r rs ih =>
    simp only [extractMembers] at h
    cases hr : rowToMember r with
    | panicked => rw [hr] at h; cases h
    | error e => rw [hr] at h; cases h
    | ok m =>
      rw [hr] at h
      cases hrs : extractMembers rs with
      | panicked => rw [hrs] at h; cases h
      | error e => rw [hrs] at h; cases h
      | ok ms0 =>
        rw [hrs] at h
        cases h
        simpa using ih ms0 hrs

theorem extractMembers_all_ok (rows : List (List String))
    (h : ∀ r ∈ rows, rowOkP r) :
    ∃ ms, extractMembers rows = Outcome.ok ms ∧ ms.length = rows.length := by
  induction rows with
  | nil => exact ⟨[], rfl, rfl⟩
  | cons r rs ih =>
    obtain ⟨m, hm⟩ := rowToMember_ok_of_rowOkP r (h r (by simp))
    obtain ⟨ms, hms, hlen⟩ := ih (fun r hr => h r (by simp [hr]))
    refine ⟨m :: ms, ?_, by simp [hlen]⟩
    simp only [extractMembers]
    rw [hm, hms]

theorem extractMembers_bad_date (rows : List (List String))
    (hlen : ∀ r ∈ rows, 5 ≤ r.length)
    (hbad : ∃ r ∈ rows, ∃ c4 e, r[4]? = some c4 ∧ parseDate c4 = Except.error e) :
    ∃ e, extractMembers rows = Outcome.error (SumsClientMembersError.chronoParseError e) := by
  induction rows with
  | nil => simp at hbad
  | cons r rs ih =>
    obtain ⟨a0, a1, a2, a3, a4, rest, rfl⟩ :=
      exists_five_cells r (hlen r (by simp))
    rcases hd : parseDate a4 with e | d
    · exact ⟨e, by simp only [extractMembers, rowToMember_cons, hd]⟩
    · have hbad' : ∃ r ∈ rs, ∃ c4 e, r[4]? = some c4 ∧ parseDate c4 = Except.error e := by
        rcases hbad with ⟨r0, hr0, c4, e, hc4, he⟩
        rcases List.mem_cons.mp hr0 with rfl | hmem
        · have : a4 = c4 := by simpa using hc4
          subst this
          rw [hd] at he
          cases he
        · exact ⟨r0, hmem, c4, e, hc4, he⟩
      obtain ⟨e, he⟩ := ih (fun r hr => hlen r (by simp [hr])) hbad'
      refine ⟨e, ?_⟩
      simp only [extractMembers, rowToMember_cons, hd]
      rw [he]

theorem rowToMember_short_panics (cells : List String) (h : cells.length < 5) :
    rowToMember cells = Outcome.panicked := by
  rcases cells with _ | ⟨c0, _ | ⟨c1, _ | ⟨c2, _ | ⟨c3, _ | ⟨c4, rest⟩⟩⟩⟩⟩ <;>
    first
      | rfl
      | (simp at h; omega)

theorem extractMembers_short_row_panics (pre : List (List String))
    (cells : List String) (post : List (List String))
    (hpre : ∀ r ∈ pre, rowOkP r) (hshort : cells.length < 5) :
    extractMembers (pre ++ cells :: post) = Outcome.panicked := by
  induction pre with
  | nil =>
    simp only [List.nil_append, extractMembers]
    rw [rowToMember_short_panics cells hshort]
  | cons r rs ih =>
    obtain ⟨m, hm⟩ := rowToMember_ok_of_rowOkP r (hpre r (by simp))
    have htail := ih (fun r hr => hpre r (by simp [hr]))
    simp only [List.cons_append, extractMembers, List.append_eq, hm, htail]

theorem rowToMember_error_is_chrono (r : List String) (e : SumsClientMembersError)
    (h : rowToMember r = Outcome.error e) :
    ∃ ce, e = SumsClientMembersError.chronoParseError ce := by
  rcases Nat.lt_or_ge r.length 5 with hl | hg
  · rw [rowToMember_short_panics r hl] at h
    cases h
  · obtain ⟨c0, c1, c2, c3, c4, rest, rfl⟩ := exists_five_cells r hg
    rw [rowToMember_cons] at h
    rcases hd : parseDate c4 with e1 | d <;> rw [hd] at h
    · cases h
      exact ⟨e1, rfl⟩
    · cases h

theorem extractMembers_no_parseIntError (rows : List (List String))
    (e : SumsClientMembersError) (h : extractMembers rows = Outcome.error e) :
    membersErrorKind e = 2 := by
  induction rows with
  | nil => simp only [extractMembers] at h; cases h
  | cons r rs ih =>
    simp only [extractMembers] at h
    cases hr : rowToMember r with
    | panicked => rw [hr] at h; cases h
    | error e0 =>
      rw [hr] at h
      injection h with h'
      subst h'
      obtain ⟨ce, rfl⟩ := rowToMember_error_is_chrono r e0 hr
      rfl
    | ok m =>
      rw [hr] at h
      cases hrs : extractMembers rs with
      | panicked => rw [hrs] at h; cases h
      | error e0 =>
        rw [hrs] at h
        injection h with h'
        subst h'
        exact ih hrs
      | ok ms => rw [hrs] at h; cases h

/-- Under fault-free remote calls, `members` reduces to extracting every
underlying row: the script injection and the select of the maximum page-size
option happen before any row is read, so the page's pagination cap is off. -/
theorem members_eq_extract_of_remoteOk (env : MembersEnv) (h : membersRemoteOk env) :
    members env = extractMembers env.page.rows := by
  obtain ⟨h1, h2, h3, h4, h5, h6, h7, h8, h9, h10, h11, h12⟩ := h
  simp [members, go_to_member_page, navStep, memStep, h1, h2, h3, h4, h5, h6, h7, h8,
    h9, h10, h11, h12, addShowAllEntries, selectShowAllByValue, visibleRows]

theorem memStep_error_cases {α : Type} (r : Except CmdError Unit) (k : Outcome α)
    (e : SumsClientMembersError) (h : memStep r k = Outcome.error e) :
    (∃ ce, e = SumsClientMembersError.sumsClientError ce) ∨ k = Outcome.error e := by
  rcases r with er | u
  · simp only [memStep] at h
    exact Or.inl ⟨_, (Outcome.error.inj h).symm⟩
  · simpa [memStep] using Or.inr h

theorem chrono_of_kind_two (e : SumsClientMembersError) (h : membersErrorKind e = 2) :
    ∃ ke, e = SumsClientMembersError.chronoParseError ke := by
  cases e <;> simp [membersErrorKind] at h ⊢

/-- Every typed error `members` can produce is either a wrapped WebDriver
fault or a date-parse failure; the integer-parse variant is unreachable. -/
theorem members_error_cases (env : MembersEnv) (e : SumsClientMembersError)
    (h : members env = Outcome.error e) :
    (∃ ce, e = SumsClientMembersError.sumsClientError ce) ∨
    (∃ ke, e = SumsClientMembersError.chronoParseError ke) := by
  simp only [members, addShowAllEntries, selectShowAllByValue] at h
  rcases hg : go_to_member_page env with ge | gu <;> simp only [hg] at h
  · exact Or.inl ⟨ge, (Outcome.error.inj h).symm⟩
  · rcases memStep_error_cases _ _ _ h with ⟨ce, rfl⟩ | h1
    · exact Or.inl ⟨ce, rfl⟩
    rcases memStep_error_cases _ _ _ h1 with ⟨ce, rfl⟩ | h2
    · exact Or.inl ⟨ce, rfl⟩
    rcases memStep_error_cases _ _ _ h2 with ⟨ce, rfl⟩ | h3
    · exact Or.inl ⟨ce, rfl⟩
    rcases memStep_error_cases _ _ _ h3 with ⟨ce, rfl⟩ | h4
    · exact Or.inl ⟨ce, rfl⟩
    rcases memStep_error_cases _ _ _ h4 with ⟨ce, rfl⟩ | h5
    · exact Or.inl ⟨ce, rfl⟩
    rcases memStep_error_cases _ _ _ h5 with ⟨ce, rfl⟩ | h6
    · exact Or.inl ⟨ce, rfl⟩
    exact Or.inr (chrono_of_kind_two e (extractMembers_no_parseIntError _ e h6))

/-! ## Claims -/

/-- C1, counterexample.  The claim says a transport-level fault of the
post-submit probe (here: the connection dropped, which is not the
element-not-found outcome) propagates as a transport error; in the code the
`Err(_)` arm of the probe match treats it as successful authentication. -/
theorem authenticate_probe_transport_fault_cex :
    authEnvProbeLost.findLoginError = Except.error CmdError.connectionLost ∧
    CmdError.connectionLost ≠ CmdError.noSuchElement ∧
    authenticate authEnvProbeLost = Except.ok () := by
  decide

/-- C1, amended.  In the post-submit probe of `authenticate`, ANY failure of
the probe — element absent or a transport-level fault such as a dropped
connection — yields success `Ok(())`; no probe fault is distinguished from
element-not-found (the source matches `Err(_)`). -/
theorem authenticate_any_probe_failure_yields_ok (env : AuthEnv) (h : authPreOk env)
    (e : CmdError) (he : env.findLoginError = Except.error e) :
    authenticate env = Except.ok () := by
  obtain ⟨h1, h2, h3, h4, h5, h6, h7, h8, h9⟩ := h
  simp [authenticate, authStep, h1, h2, h3, h4, h5, h6, h7, h8, h9, he]

/-- C1 witness: the amended claim evaluated at the probe-connection-lost
run. -/
theorem authenticate_any_probe_failure_yields_ok_witness :
    authPreOk authEnvProbeLost ∧ authenticate authEnvProbeLost = Except.ok () :=
  ⟨by decide,
   authenticate_any_probe_failure_yields_ok authEnvProbeLost (by decide)
     CmdError.connectionLost (by decide)⟩

/-- C3: after submission, if the login-error element is present and its text
reads `t`, `authenticate` returns `AuthFailedError(t)`; if the probe for it
fails (element absent), `authenticate` returns `Ok(())`. -/
theorem authenticate_rejected_with_text_or_ok (env : AuthEnv) (h : authPreOk env) :
    (∀ t, env.findLoginError = Except.ok () → env.loginErrorText = Except.ok t →
      authenticate env = Except.error (SumsClientAuthError.authFailedError t)) ∧
    (∀ e, env.findLoginError = Except.error e → authenticate env = Except.ok ()) := by
  obtain ⟨h1, h2, h3, h4, h5, h6, h7, h8, h9⟩ := h
  constructor
  · intro t hf ht
    simp [authenticate, authStep, h1, h2, h3, h4, h5, h6, h7, h8, h9, hf, ht]
  · intro e hf
    simp [authenticate, authStep, h1, h2, h3, h4, h5, h6, h7, h8, h9, hf]

/-- C3 witness: a present error element with a concrete message yields
exactly that rejection; an absent one yields success. -/
theorem authenticate_rejected_with_text_or_ok_witness :
    authPreOk authEnvRejected ∧
    authenticate authEnvRejected =
      Except.error (SumsClientAuthError.authFailedError "Incorrect username or password.") ∧
    authenticate authEnvAllOk = Except.ok () :=
  ⟨by decide,
   (authenticate_rejected_with_text_or_ok authEnvRejected (by decide)).1
     "Incorrect username or password." rfl rfl,
   (authenticate_rejected_with_text_or_ok authEnvAllOk (by decide)).2
     CmdError.noSuchElement rfl⟩

/-- C4: over rows with at least five cells, a parse failure of the studentId
cell (per the declared `String` identifier type, whose parse is infallible)
or of the dateJoined cell (format `%Y-%m-%d`) in any row is fatal for the
whole `members` call — it returns a date-parse extraction error — and a
successful call returns one member per row, never a roster silently omitting
a bad row. -/
theorem members_parse_failure_fatal (env : MembersEnv) (hok : membersRemoteOk env)
    (hlen : ∀ r ∈ env.page.rows, 5 ≤ r.length) :
    ((∃ r ∈ env.page.rows, rowParseFails r) →
      ∃ e, members env = Outcome.error (SumsClientMembersError.chronoParseError e)) ∧
    (∀ ms, members env = Outcome.ok ms → ms.length = env.page.rows.length) := by
  have hme := members_eq_extract_of_remoteOk env hok
  constructor
  · rintro ⟨r, hr, hfail⟩
    rcases hfail with ⟨c0, hc0, e, he⟩ | ⟨c4, e, hc4, he⟩
    · exact e.elim
    · rw [hme]
      exact extractMembers_bad_date env.page.rows hlen ⟨r, hr, c4, e, hc4, he⟩
  · intro ms hms
    rw [hme] at hms
    exact extractMembers_ok_length _ _ hms

/-- C4 witness: a roster whose only row carries the date cell "not-a-date"
makes the whole call fail with a date-parse extraction error. -/
theorem members_parse_failure_fatal_witness :
    membersRemoteOk membersEnvBadDate ∧
    (∀ r ∈ membersEnvBadDate.page.rows, 5 ≤ r.length) ∧
    ∃ e, members membersEnvBadDate =
      Outcome.error (SumsClientMembersError.chronoParseError e) :=
  ⟨by decide, by decide,
   (members_parse_failure_fatal membersEnvBadDate (by decide) (by decide)).1
     ⟨["123456", "Jane Doe", "ignored", "Gold", "not-a-date"], by decide,
      Or.inr ⟨"not-a-date", ChronoParseError.invalid, by decide, by decide⟩⟩⟩

/-- C5: a row whose cells in document order are `[c0, c1, c2, c3, c4]`
(possibly followed by more) maps c0 to studentId, c1 to name, c3 to
subscriptionLabel and the parsed c4 to dateJoined, skips c2 entirely (the
result does not depend on it), and fixes the member type to `Student`
without reading it from the row. -/
theorem rowToMember_field_mapping (c0 c1 c2 c3 c4 : String) (rest : List String)
    (d : Date) (hd : parseDate c4 = Except.ok d) :
    rowToMember (c0 :: c1 :: c2 :: c3 :: c4 :: rest) =
      Outcome.ok { student_id := c0, name := c1, member_type := MemberType.student,
                   subscription_purchased := c3, date_joined := d } := by
  rw [rowToMember_cons, hd]
  rfl


/-- C5 witness: the spec's P4 example row. -/
theorem rowToMember_field_mapping_witness :
    parseDate "2023-09-01" = Except.ok ⟨2023, 9, 1⟩ ∧
    rowToMember ["123456", "Jane Doe", "ignored", "Gold", "2023-09-01"] =
      Outcome.ok { student_id := "123456", name := "Jane Doe",
                   member_type := MemberType.student,
                   subscription_purchased := "Gold", date_joined := ⟨2023, 9, 1⟩ } :=
  ⟨by decide,
   rowToMember_field_mapping "123456" "Jane Doe" "ignored" "Gold" "2023-09-01" []
     ⟨2023, 9, 1⟩ (by decide)⟩

/-- C6, counterexample.  The claim says a timed-out dashboard wait yields an
error of a navigation-timeout kind distinct from the transport-failure kind;
in the code both the timeout and a dropped connection surface as the same
`SumsClientError(WebDriverCmdError(..))` variant of `SumsClientMembersError`
— the enum has no timeout variant, so the kinds coincide. -/
theorem members_timeout_kind_cex :
    members membersEnvWaitTimeout = Outcome.error errWaitTimeout ∧
    members membersEnvWaitLost = Outcome.error errTransportLost ∧
    membersErrorKind errWaitTimeout = membersErrorKind errTransportLost := by
  decide

/-- C6, amended.  When the bounded wait for the dashboard URL times out, the
flow fails (the timeout is not silently passed through), but the resulting
error is the same `SumsClientError`-wrapping-`CmdError` kind of
`SumsClientMembersError` as a transport failure; the timeout is recorded
only in the wrapped `CmdError` value, not as a distinct error kind of the
client's error enum. -/
theorem members_wait_timeout_error (env : MembersEnv)
    (h1 : env.gotoBase = Except.ok ())
    (h2 : env.findUserActionsInvoker = Except.ok ())
    (h3 : env.clickUserActionsInvoker = Except.ok ())
    (h4 : env.findStudentDashboardLink = Except.ok ())
    (h5 : env.clickStudentDashboardLink = Except.ok ())
    (hw : env.waitForDashboardUrl = Except.error CmdError.waitTimeout) :
    members env = Outcome.error errWaitTimeout ∧
    membersErrorKind errWaitTimeout = membersErrorKind errTransportLost := by
  refine ⟨?_, rfl⟩
  simp [members, go_to_member_page, navStep, errWaitTimeout, h1, h2, h3, h4, h5, hw]

/-- C6 witness: the amended claim evaluated at the timed-out run. -/
theorem members_wait_timeout_error_witness :
    membersEnvWaitTimeout.waitForDashboardUrl = Except.error CmdError.waitTimeout ∧
    members membersEnvWaitTimeout = Outcome.error errWaitTimeout :=
  ⟨by decide,
   (members_wait_timeout_error membersEnvWaitTimeout rfl rfl rfl rfl rfl rfl).1⟩

/-- C7: when every remote call succeeds and every underlying row is
extractable, `members` returns one record per underlying row even though the
underlying data has more rows than the current (default) page size: the
injected show-all script and the select of the maximum option take effect
before the rows are read, so the roster is never truncated to the page
size. -/
theorem members_full_roster (env : MembersEnv) (hok : membersRemoteOk env)
    (hrows : ∀ r ∈ env.page.rows, rowOkP r)
    (_hmore : env.page.pageSize < env.page.rows.length) :
    ∃ ms, members env = Outcome.ok ms ∧ ms.length = env.page.rows.length := by
  obtain ⟨ms, hms, hlen⟩ := extractMembers_all_ok env.page.rows hrows
  exact ⟨ms, by rw [members_eq_extract_of_remoteOk env hok]; exact hms, hlen⟩

/-- C7 witness: two underlying rows behind a one-row page size still produce
a two-record roster. -/
theorem members_full_roster_witness :
    membersRemoteOk membersEnvTwoRows ∧
    (∀ r ∈ membersEnvTwoRows.page.rows, rowOkP r) ∧
    membersEnvTwoRows.page.pageSize < membersEnvTwoRows.page.rows.length ∧
    ∃ ms, members membersEnvTwoRows = Outcome.ok ms ∧
      ms.length = membersEnvTwoRows.page.rows.length := by
  have hrows : ∀ r ∈ membersEnvTwoRows.page.rows, rowOkP r := by
    intro r hr
    rcases List.mem_cons.mp hr with rfl | hr
    · exact ⟨"2023-09-01", ⟨2023, 9, 1⟩, by decide, by decide⟩
    rcases List.mem_cons.mp hr with rfl | hr
    · exact ⟨"2024-02-29", ⟨2024, 2, 29⟩, by decide, by decide⟩
    · cases hr
  exact ⟨by decide, hrows, by decide,
    members_full_roster membersEnvTwoRows (by decide) hrows (by decide)⟩

/-- C8: a table body with zero rows makes `members` return the empty roster,
not an error. -/
theorem members_empty_table_ok (env : MembersEnv) (hok : membersRemoteOk env)
    (hempty : env.page.rows = []) : members env = Outcome.ok [] := by
  rw [members_eq_extract_of_remoteOk env hok, hempty]
  rfl

/-- C8 witness: the empty page. -/
theorem members_empty_table_ok_witness :
    membersRemoteOk (okMembersEnv emptyPage) ∧
    members (okMembersEnv emptyPage) = Outcome.ok [] :=
  ⟨by decide, members_empty_table_ok (okMembersEnv emptyPage) (by decide) rfl⟩

/-- C9: a row with fewer than five cells makes the conversion hit an
out-of-bounds index among positions 0, 1, 3, 4 — modelled as a panic — so
`members` aborts instead of returning any typed `SumsClientMembersError`
(provided the rows before it convert cleanly). -/
theorem members_short_row_panics (env : MembersEnv) (hok : membersRemoteOk env)
    (pre : List (List String)) (cells : List String) (post : List (List String))
    (hsplit : env.page.rows = pre ++ cells :: post)
    (hpre : ∀ r ∈ pre, rowOkP r) (hshort : cells.length < 5) :
    rowToMember cells = Outcome.panicked ∧
    members env = Outcome.panicked ∧
    ∀ e, members env ≠ Outcome.error e := by
  have hm : members env = Outcome.panicked := by
    rw [members_eq_extract_of_remoteOk env hok, hsplit]
    exact extractMembers_short_row_panics pre cells post hpre hshort
  exact ⟨rowToMember_short_panics cells hshort, hm,
    fun e he => by rw [hm] at he; cases he⟩

/-- C9 witness: a single four-cell row aborts the call. -/
theorem members_short_row_panics_witness :
    membersRemoteOk membersEnvShortRow ∧
    (["123456", "Jane Doe", "ignored", "Gold"] : List String).length < 5 ∧
    members membersEnvShortRow = Outcome.panicked :=
  ⟨by decide, by decide,
   (members_short_row_panics membersEnvShortRow (by decide)
     [] ["123456", "Jane Doe", "ignored", "Gold"] [] rfl
     (by intro r hr; cases hr) (by decide)).2.1⟩

/-- C10: because `StudentId` is `String`, the studentId parse succeeds for
every cell text — non-numeric identifiers and leading zeros are preserved
verbatim — and no error `members` returns is the `ParseIntError` variant of
`SumsClientMembersError`. -/
theorem members_never_parseIntError :
    (∀ s, parseStudentId s = Except.ok s) ∧
    (∀ env e, members env = Outcome.error e →
      ∀ k, e ≠ SumsClientMembersError.parseIntError k) := by
  refine ⟨fun s => rfl, fun env e h k hk => ?_⟩
  subst hk
  rcases members_error_cases env _ h with ⟨ce, hce⟩ | ⟨ke, hke⟩
  · cases hce
  · cases hke

/-- C10 witness: a leading-zero, non-numeric identifier parses verbatim, and
the one error the bad-date run produces is not the integer-parse variant. -/
theorem members_never_parseIntError_witness :
    parseStudentId "007A" = Except.ok "007A" ∧
    members membersEnvBadDate =
      Outcome.error (SumsClientMembersError.chronoParseError ChronoParseError.invalid) ∧
    SumsClientMembersError.chronoParseError ChronoParseError.invalid ≠
      SumsClientMembersError.parseIntError ParseIntErrorKind.invalidDigit :=
  ⟨members_never_parseIntError.1 "007A", by decide,
   members_never_parseIntError.2 membersEnvBadDate
     (SumsClientMembersError.chronoParseError ChronoParseError.invalid) (by decide)
     ParseIntErrorKind.invalidDigit⟩

end Libsums
